import Mathlib

/-!
Shallow embedding of `startduckai.py` (StartDuck AI API client, v0.1).

JSON values are modelled by `JVal`; Python dictionaries that hold JSON
objects are association lists `List (String × JVal)` looked up with the
first matching key.  Python exceptions become the `ApiError` sum type and
fallible code returns `Except ApiError _`.  Each definition mirrors the
source function of the same name.
-/

/-- A JSON value as produced by `requests`/`aiohttp` `.json()`. -/
inductive JVal where
  | str (s : String)
  | num (n : Int)
  | bool (b : Bool)
  | null
  | arr (items : List JVal)
  | obj (fields : List (String × JVal))

/-- The library's exception taxonomy (classes at the bottom of
`startduckai.py`), plus the raw Python runtime errors its code can raise.
Constructors that the code raises with a payload carry that payload:
`answer['message']` is a JSON value, local raises carry string literals. -/
inductive ApiError where
  | invalidMimeType (msg : String)
  | tooManyAttemptsReturnError
  | messageInQueue
  | noReply (msg : JVal)
  | inProcess (msg : JVal)
  | messageSizeLimit
  | chatBotNotActive (msg : JVal)
  | chatBotNotFound (msg : JVal)
  | chatBotNotTrained (msg : JVal)
  | badRequest (msg : JVal)
  | badResponse (msg : String)
  | accessDenied (msg : JVal)
  | rpdLimitReached (msg : JVal)
  | spamBlock (msg : JVal)
  | unknownError (msg : String)
  | keyError (key : String)
  | attributeError (name : String)
  | indexError
  | typeError (msg : String)

/-- Python `d[k]` on a dict: the value of the key, `KeyError` if absent. -/
def lookup (d : List (String × JVal)) (k : String) : Except ApiError JVal :=
  match d.find? (fun p => p.1 == k) with
  | some p => Except.ok p.2
  | none => Except.error (ApiError.keyError k)

/-- Python `v[k]` where `v` is an arbitrary JSON value: dict lookup on an
object, `TypeError` for values not subscriptable by a string key. -/
def JVal.getItem (v : JVal) (k : String) : Except ApiError JVal :=
  match v with
  | JVal.obj fields =>
    match fields.find? (fun p => p.1 == k) with
    | some p => Except.ok p.2
    | none => Except.error (ApiError.keyError k)
  | _ => Except.error (ApiError.typeError "value is not subscriptable by a string key")

mutual

/-- Python `repr()` of a JSON value. -/
def pyRepr : JVal → String
  | JVal.str s => "'" ++ s ++ "'"
  | JVal.num n => toString n
  | JVal.bool true => "True"
  | JVal.bool false => "False"
  | JVal.null => "None"
  | JVal.arr items => "[" ++ String.intercalate ", " (pyReprList items) ++ "]"
  | JVal.obj fields =>
    "\x7b" ++ String.intercalate ", " (pyReprFields fields) ++ "\x7d"

/-- `repr` of each element of a JSON array. -/
def pyReprList : List JVal → List String
  | [] => []
  | v :: vs => pyRepr v :: pyReprList vs

/-- `repr` of each `key: value` entry of a JSON object. -/
def pyReprFields : List (String × JVal) → List String
  | [] => []
  | (k, v) :: fs => ("'" ++ k ++ "': " ++ pyRepr v) :: pyReprFields fs

end

/-- Python `str()` as an f-string interpolates a value: a string stands for
itself, any other value by its `repr`. -/
def pyStr : JVal → String
  | JVal.str s => s
  | v => pyRepr v

/-- The message raised with every `UnknownError` in the source. -/
def unknownStatusMsg : String := "The API returned an unexpected status code."

/-- `SyncAPI._check_for_errors` (lines 190-228): `match` on
`answer['status']`, and for status `'error'` on `answer['error']`, raising
the mapped exception carrying `answer['message']`.  A Python
`case 'lit'` matches exactly the values equal to the string literal, so it
is rendered as a string-equality test chain on string values, with every
non-string value falling to the wildcard branch. -/
def check_for_errors (answer : List (String × JVal)) : Except ApiError Unit := do
  let status ← lookup answer "status"
  match status with
  | JVal.str s =>
    if s = "success" then
      pure ()
    else if s = "error" then do
      let err ← lookup answer "error"
      match err with
      | JVal.str e =>
        if e = "no_reply" then do
          let m ← lookup answer "message"
          Except.error (ApiError.noReply m)
        else if e = "in_process" then do
          let m ← lookup answer "message"
          Except.error (ApiError.inProcess m)
        else if e = "chatbot_not_active" then do
          let m ← lookup answer "message"
          Except.error (ApiError.chatBotNotActive m)
        else if e = "chatbot_not_found" then do
          let m ← lookup answer "message"
          Except.error (ApiError.chatBotNotFound m)
        else if e = "chatbot_not_trained" then do
          let m ← lookup answer "message"
          Except.error (ApiError.chatBotNotTrained m)
        else if e = "bad_request" then do
          let m ← lookup answer "message"
          Except.error (ApiError.badRequest (JVal.str
            ("Perhaps the `startduckai` package is outdated. Error message: " ++ pyStr m)))
        else if e = "access_denied" then do
          let m ← lookup answer "message"
          Except.error (ApiError.accessDenied m)
        else if e = "rpd_limit_reached" then do
          let m ← lookup answer "message"
          Except.error (ApiError.rpdLimitReached m)
        else if e = "spam_block" then do
          let m ← lookup answer "message"
          Except.error (ApiError.spamBlock m)
        else
          Except.error (ApiError.unknownError unknownStatusMsg)
      | _ => Except.error (ApiError.unknownError unknownStatusMsg)
    else
      Except.error (ApiError.unknownError unknownStatusMsg)
  | _ => Except.error (ApiError.unknownError unknownStatusMsg)

/-!
## Message model

A message object carries the instance attributes that `__init__` assigns
(`self.data`, `self.mime`) together with the class attribute `type`; each
variant class carries its `type` tag and its class attribute `mime`, the
allowed-mimetype list.  Attribute access on `self` is modelled by Python's
rule: the instance dictionary first, then the class attributes, and
`AttributeError` when neither defines the name.
-/

/-- A constructed message: the attributes a message instance holds after
`MessageBase.__init__` ran its two assignments. -/
structure MessageObj where
  type : Option String
  mime : String
  data : String

/-- Class-level data of a message variant: the `type` tag (`None` on
`MessageBase` itself) and the class attribute `mime`. -/
structure MessageClass where
  type : Option String
  mime : List String

/-- A Python value an attribute lookup on a message can yield. -/
inductive PyAttr where
  | str (s : String)
  | strList (l : List String)
  | pyNone

/-- The instance dictionary after the two assignments in
`MessageBase.__init__` (lines 85-86): `self.data` and `self.mime`, the
latter holding the mimetype STRING, shadowing the class attribute list. -/
def instanceAttrs (self : MessageObj) : List (String × PyAttr) :=
  [("data", PyAttr.str self.data), ("mime", PyAttr.str self.mime)]

/-- The class attributes a message variant defines: `type` and `mime`. -/
def classAttrs (cls : MessageClass) : List (String × PyAttr) :=
  [("type", match cls.type with | some t => PyAttr.str t | none => PyAttr.pyNone),
   ("mime", PyAttr.strList cls.mime)]

/-- Python attribute lookup `self.name`: instance dictionary first, then
the class attributes, else `AttributeError`. -/
def getattr (self : MessageObj) (cls : MessageClass) (name : String) :
    Except ApiError PyAttr :=
  match (instanceAttrs self ++ classAttrs cls).find? (fun p => p.1 == name) with
  | some p => Except.ok p.2
  | none => Except.error (ApiError.attributeError name)

/-- Whether `s` occurs in `t` as a contiguous substring (`s in t` on
Python strings). -/
def strContainsSub (t s : String) : Bool :=
  (List.range (t.length + 1)).any (fun i => s.isPrefixOf (t.drop i))

/-- Python `x in container` for the values attribute lookup can yield:
membership on a list, substring on a string, `TypeError` on `None`. -/
def pyContains (x : String) (container : PyAttr) : Except ApiError Bool :=
  match container with
  | PyAttr.str t => Except.ok (strContainsSub t x)
  | PyAttr.strList l => Except.ok (l.contains x)
  | PyAttr.pyNone => Except.error (ApiError.typeError "argument of type NoneType is not iterable")

/-- `MessageBase.__init__` (lines 80-89): assign `self.data` and
`self.mime`, then test `mime.lower() in self.mimetypes` and raise
`InvalidMimeType` when the test fails. -/
def MessageBase.init (cls : MessageClass) (data mime : String) :
    Except ApiError MessageObj := do
  let self : MessageObj := ⟨cls.type, mime, data⟩
  let target ← getattr self cls "mimetypes"
  let isIn ← pyContains (mime.toLower) target
  if isIn then
    pure self
  else
    Except.error (ApiError.invalidMimeType "Bad message content mimetype.")

/-- `MessageBase.serialize` (lines 91-96). -/
def MessageObj.serialize (m : MessageObj) : JVal :=
  JVal.obj [
    ("type", match m.type with | some t => JVal.str t | none => JVal.null),
    ("mime", JVal.str m.mime),
    ("data", JVal.str m.data)]

/-- `TextMessage` class data (lines 98-100). -/
def TextMessage.cls : MessageClass := ⟨some "text", ["text/plain"]⟩

/-- `VoiceMessage` class data (lines 105-107). -/
def VoiceMessage.cls : MessageClass :=
  ⟨some "voice", ["audio/wav", "audio/mpeg", "audio/mp4", "audio/ogg"]⟩

/-- `ImageMessage` class data (lines 109-111). -/
def ImageMessage.cls : MessageClass :=
  ⟨some "image", ["image/bmp", "image/png", "image/jpeg", "image/gif", "image/webp"]⟩

/-- `StickerMessage` class data (lines 113-115). -/
def StickerMessage.cls : MessageClass :=
  ⟨some "sticker",
   ["image/bmp", "image/png", "image/jpeg", "image/gif", "image/webp", "sticker/lottie"]⟩

/-- `AudioMessage` class data (lines 117-119). -/
def AudioMessage.cls : MessageClass :=
  ⟨some "audio", ["audio/wav", "audio/mpeg", "audio/mp4", "audio/ogg"]⟩

/-- `VideoMessage` class data (lines 121-123). -/
def VideoMessage.cls : MessageClass := ⟨some "video", ["video/mp4", "video/webm"]⟩

/-- `DocumentMessage` class data (lines 125-127). -/
def DocumentMessage.cls : MessageClass :=
  ⟨some "document",
   ["text/plain", "application/pdf", "application/msword", "application/mswordx",
    "application/ppt", "application/pptx"]⟩

/-- `TextMessage.__init__` (lines 102-103): delegates to
`MessageBase.__init__` with `self.mime[0]` (lookup finds the class
attribute list, since no instance attribute exists yet at call time). -/
def TextMessage.init (text : String) : Except ApiError MessageObj :=
  match TextMessage.cls.mime with
  | m0 :: _ => MessageBase.init TextMessage.cls text m0
  | [] => Except.error ApiError.indexError

/-- `VoiceMessage(data, mime)`: inherits `MessageBase.__init__`. -/
def VoiceMessage.init (data mime : String) : Except ApiError MessageObj :=
  MessageBase.init VoiceMessage.cls data mime

/-- `ImageMessage(data, mime)`: inherits `MessageBase.__init__`. -/
def ImageMessage.init (data mime : String) : Except ApiError MessageObj :=
  MessageBase.init ImageMessage.cls data mime

/-- `StickerMessage(data, mime)`: inherits `MessageBase.__init__`. -/
def StickerMessage.init (data mime : String) : Except ApiError MessageObj :=
  MessageBase.init StickerMessage.cls data mime

/-- `AudioMessage(data, mime)`: inherits `MessageBase.__init__`. -/
def AudioMessage.init (data mime : String) : Except ApiError MessageObj :=
  MessageBase.init AudioMessage.cls data mime

/-- `VideoMessage(data, mime)`: inherits `MessageBase.__init__`. -/
def VideoMessage.init (data mime : String) : Except ApiError MessageObj :=
  MessageBase.init VideoMessage.cls data mime

/-- `DocumentMessage(data, mime)`: inherits `MessageBase.__init__`. -/
def DocumentMessage.init (data mime : String) : Except ApiError MessageObj :=
  MessageBase.init DocumentMessage.cls data mime

/-!
## Client

The two send variants are modelled against a fixed server behavior: the
HTTP status code and JSON body the server returns to the single POST a
send performs (neither variant retries).  A send outcome records the
request actually POSTed — `none` when no network call was made — and the
returned value or raised exception.  The request timeout only parametrises
the transport and is not part of the embedded logic.
-/

/-- The configuration `SyncAPI.__init__` stores (lines 166-187). -/
structure ClientConfig where
  api_url : String
  api_key : Option String
  chatbot_uuid : Option String
  webhook : Option String

/-- Python `None`-able strings serialize to JSON as the string or null. -/
def optStr : Option String → JVal
  | some s => JVal.str s
  | none => JVal.null

/-- The URL and JSON body both send variants build (lines 250-261 and
309-318): `\x7bapi_url\x7d/integrations[/crm]/webhook` with the `/crm`
segment iff `via_crm`, and the SendRequest object, with `metadata`
replaced by an empty object when `None`. -/
def buildRequest (cfg : ClientConfig) (client_id : String) (messages : List MessageObj)
    (metadata : Option (List (String × JVal))) (via_crm : Bool) : String × JVal :=
  (cfg.api_url ++ "/integrations" ++ (if via_crm then "/crm" else "") ++ "/webhook",
   JVal.obj [
     ("api_key", optStr cfg.api_key),
     ("chatbot_uuid", optStr cfg.chatbot_uuid),
     ("client_id", JVal.str client_id),
     ("messages", JVal.arr (messages.map MessageObj.serialize)),
     ("webhook", optStr cfg.webhook),
     ("metadata", match metadata with | some d => JVal.obj d | none => JVal.obj [])])

/-- A fixed server behavior: the HTTP status code and JSON-object body it
returns to the one POST a send performs. -/
structure ServerBehavior where
  httpStatus : Nat
  body : List (String × JVal)

/-- The outcome of a send: the request POSTed (`none` when no network
call happened) and the value returned or exception raised. -/
structure SendOutcome where
  request : Option (String × JVal)
  result : Except ApiError Unit

/-- `SyncAPI.send_messages` (lines 231-266): raise `BadRequest` on an
empty message list before any network call; otherwise POST, raise
`UnknownError` on a non-200 status, else run `_check_for_errors` on the
response body. -/
def SyncAPI.send_messages (cfg : ClientConfig) (client_id : String)
    (messages : List MessageObj) (metadata : Option (List (String × JVal)))
    (via_crm : Bool) (server : ServerBehavior) : SendOutcome :=
  if messages.length = 0 then
    ⟨none, Except.error (ApiError.badRequest
      (JVal.str "List of messages must contain at least one message!"))⟩
  else
    ⟨some (buildRequest cfg client_id messages metadata via_crm),
     if server.httpStatus ≠ 200 then
       Except.error (ApiError.unknownError unknownStatusMsg)
     else
       check_for_errors server.body⟩

/-- `AsyncAPI.send_messages` (lines 292-323): POST (no emptiness check in
this override), raise `UnknownError` on a non-200 status, else run the
inherited `_check_for_errors` on the response body. -/
def AsyncAPI.send_messages (cfg : ClientConfig) (client_id : String)
    (messages : List MessageObj) (metadata : Option (List (String × JVal)))
    (via_crm : Bool) (server : ServerBehavior) : SendOutcome :=
  ⟨some (buildRequest cfg client_id messages metadata via_crm),
   if server.httpStatus ≠ 200 then
     Except.error (ApiError.unknownError unknownStatusMsg)
   else
     check_for_errors server.body⟩

/-!
## Reply struct and webhook parsing
-/

/-- `ReplyMessage.__init__` fields (lines 133-148); `metadata` defaults to
`None`, i.e. JSON null. -/
structure ReplyMessage where
  text : JVal
  text_markdown : JVal
  text_markdown_v2 : JVal
  chatbot_uuid : JVal
  client_id : JVal
  metadata : JVal

/-- `ReplyMessage.deserialize` (lines 150-159): subscript accesses in the
source's evaluation order, and `packed.get('metadata', None)`. -/
def ReplyMessage.deserialize (packed : List (String × JVal)) :
    Except ApiError ReplyMessage := do
  let a1 ← lookup packed "answer"
  let t ← a1.getItem "text"
  let a2 ← lookup packed "answer"
  let fbmd ← a2.getItem "fbmd"
  let a3 ← lookup packed "answer"
  let mdv2 ← a3.getItem "mdv2"
  let cu ← lookup packed "chatbot_uuid"
  let ci ← lookup packed "client_id"
  let md := match packed.find? (fun p => p.1 == "metadata") with
    | some p => p.2
    | none => JVal.null
  pure ⟨t, fbmd, mdv2, cu, ci, md⟩

/-- The message `parse_reply` raises `BadResponse` with (line 284). -/
def badResponseMsg : String :=
  "The API returned an unexpected response. Perhaps the `startduckai` package is outdated."

/-- `SyncAPI.parse_reply` (lines 275-284): run `ReplyMessage.deserialize`,
turning a `KeyError` — and only a `KeyError` — into `BadResponse`. -/
def SyncAPI.parse_reply (response_json : List (String × JVal)) :
    Except ApiError ReplyMessage :=
  match ReplyMessage.deserialize response_json with
  | Except.ok r => Except.ok r
  | Except.error (ApiError.keyError _) => Except.error (ApiError.badResponse badResponseMsg)
  | Except.error e => Except.error e

/-- The nine server error codes `_check_for_errors` recognizes. -/
def recognizedErrorCodes : List String :=
  ["no_reply", "in_process", "chatbot_not_active", "chatbot_not_found",
   "chatbot_not_trained", "bad_request", "access_denied", "rpd_limit_reached",
   "spam_block"]

/-- The code-to-failure-kind mapping of §4.3 of the spec, each entry
telling how the carried payload is built from the server's `message`
value; `bad_request` prepends the outdated-package note. -/
def errorDispatchTable : List (String × (JVal → ApiError)) :=
  [("no_reply", ApiError.noReply),
   ("in_process", ApiError.inProcess),
   ("chatbot_not_active", ApiError.chatBotNotActive),
   ("chatbot_not_found", ApiError.chatBotNotFound),
   ("chatbot_not_trained", ApiError.chatBotNotTrained),
   ("bad_request", fun m => ApiError.badRequest (JVal.str
     ("Perhaps the `startduckai` package is outdated. Error message: " ++ pyStr m))),
   ("access_denied", ApiError.accessDenied),
   ("rpd_limit_reached", ApiError.rpdLimitReached),
   ("spam_block", ApiError.spamBlock)]

/-- A sample client configuration used for concrete evaluations. -/
def cfgEx : ClientConfig := ⟨"https://bigduck.ai", some "key", some "bot", some "hook"⟩

/-- A sample message object holding the fields of a text message. -/
def msgEx : MessageObj := ⟨some "text", "text/plain", "hello"⟩

/-- A sample success body and the server behavior returning it with 200. -/
def bodyOkEx : List (String × JVal) := [("status", JVal.str "success")]

/-- HTTP 200 with the success body. -/
def srvOkEx : ServerBehavior := ⟨200, bodyOkEx⟩

/-- A sample `spam_block` error body, message `"m"`. -/
def bodyErrEx : List (String × JVal) :=
  [("status", JVal.str "error"), ("error", JVal.str "spam_block"), ("message", JVal.str "m")]

/-- A body whose `status` value is a string outside success/error. -/
def bodyWeirdStatus : List (String × JVal) := [("status", JVal.str "spam")]

/-- A `status error` body whose error code is outside the dispatch table. -/
def bodyWeirdCode : List (String × JVal) :=
  [("status", JVal.str "error"), ("error", JVal.str "weird")]

/-!
## Sanity checks on concrete inputs
-/

example : check_for_errors [("status", JVal.str "success")] = Except.ok () := rfl
example : check_for_errors [] = Except.error (ApiError.keyError "status") := rfl
example : check_for_errors [("status", JVal.str "error"), ("error", JVal.str "spam_block"),
    ("message", JVal.str "m")] = Except.error (ApiError.spamBlock (JVal.str "m")) := rfl

example : TextMessage.init "hello" = Except.error (ApiError.attributeError "mimetypes") := rfl
example : VoiceMessage.init "url" "audio/wav" =
    Except.error (ApiError.attributeError "mimetypes") := rfl

example : SyncAPI.parse_reply [] = Except.error (ApiError.badResponse badResponseMsg) := rfl
example :
    SyncAPI.parse_reply
      [("answer", JVal.obj [("text", JVal.str "hi"), ("fbmd", JVal.str "**hi**"),
        ("mdv2", JVal.str "*hi*")]),
       ("chatbot_uuid", JVal.str "c1"), ("client_id", JVal.str "u1")] =
    Except.ok ⟨JVal.str "hi", JVal.str "**hi**", JVal.str "*hi*",
      JVal.str "c1", JVal.str "u1", JVal.null⟩ := rfl

/-!
## Evaluation lemmas
-/

theorem exceptBind_ok {α β : Type} (a : α) (f : α → Except ApiError β) :
    (Except.ok a >>= f) = f a := rfl

theorem exceptBind_error {α β : Type} (e : ApiError) (f : α → Except ApiError β) :
    ((Except.error e : Except ApiError α) >>= f) = Except.error e := rfl

theorem sync_result_200 (cfg : ClientConfig) (client_id : String)
    (messages : List MessageObj) (metadata : Option (List (String × JVal)))
    (via_crm : Bool) (body : List (String × JVal)) (h : messages ≠ []) :
    (SyncAPI.send_messages cfg client_id messages metadata via_crm ⟨200, body⟩).result =
      check_for_errors body := by
  simp [SyncAPI.send_messages, List.length_eq_zero, h]

theorem async_result_200 (cfg : ClientConfig) (client_id : String)
    (messages : List MessageObj) (metadata : Option (List (String × JVal)))
    (via_crm : Bool) (body : List (String × JVal)) :
    (AsyncAPI.send_messages cfg client_id messages metadata via_crm ⟨200, body⟩).result =
      check_for_errors body := by
  simp [AsyncAPI.send_messages]

theorem sync_result_non200 (cfg : ClientConfig) (client_id : String)
    (messages : List MessageObj) (metadata : Option (List (String × JVal)))
    (via_crm : Bool) (code : Nat) (body : List (String × JVal))
    (h : messages ≠ []) (hc : code ≠ 200) :
    (SyncAPI.send_messages cfg client_id messages metadata via_crm ⟨code, body⟩).result =
      Except.error (ApiError.unknownError unknownStatusMsg) := by
  simp [SyncAPI.send_messages, List.length_eq_zero, h, hc]

theorem async_result_non200 (cfg : ClientConfig) (client_id : String)
    (messages : List MessageObj) (metadata : Option (List (String × JVal)))
    (via_crm : Bool) (code : Nat) (body : List (String × JVal)) (hc : code ≠ 200) :
    (AsyncAPI.send_messages cfg client_id messages metadata via_crm ⟨code, body⟩).result =
      Except.error (ApiError.unknownError unknownStatusMsg) := by
  simp [AsyncAPI.send_messages, hc]

theorem check_success (body : List (String × JVal))
    (h : lookup body "status" = Except.ok (JVal.str "success")) :
    check_for_errors body = Except.ok () := by
  simp only [check_for_errors, h, exceptBind_ok]
  rfl

theorem check_dispatch (body : List (String × JVal)) (m : JVal) (c : String)
    (k : JVal → ApiError)
    (hs : lookup body "status" = Except.ok (JVal.str "error"))
    (he : lookup body "error" = Except.ok (JVal.str c))
    (hm : lookup body "message" = Except.ok m)
    (hmem : (c, k) ∈ errorDispatchTable) :
    check_for_errors body = Except.error (k m) := by
  simp only [errorDispatchTable, List.mem_cons, List.not_mem_nil, or_false,
    Prod.mk.injEq] at hmem
  obtain hck | hck | hck | hck | hck | hck | hck | hck | hck := hmem
  all_goals
    obtain ⟨rfl, rfl⟩ := hck
    simp only [check_for_errors, hs, he, hm, exceptBind_ok]
    rfl

theorem check_unknown_status (body : List (String × JVal)) (v : JVal)
    (hs : lookup body "status" = Except.ok v)
    (h1 : v ≠ JVal.str "success") (h2 : v ≠ JVal.str "error") :
    check_for_errors body = Except.error (ApiError.unknownError unknownStatusMsg) := by
  simp only [check_for_errors, hs, exceptBind_ok]
  split <;> simp_all

theorem check_unknown_code (body : List (String × JVal)) (w : JVal)
    (hs : lookup body "status" = Except.ok (JVal.str "error"))
    (he : lookup body "error" = Except.ok w)
    (hw : ∀ c ∈ recognizedErrorCodes, w ≠ JVal.str c) :
    check_for_errors body = Except.error (ApiError.unknownError unknownStatusMsg) := by
  simp only [check_for_errors, hs, he, exceptBind_ok]
  rw [if_neg (by decide), if_pos trivial]
  rcases w with s | n | b | _ | items | fields
  case str =>
    have hn : ∀ c ∈ recognizedErrorCodes, s ≠ c := by
      intro c hc hsc
      exact hw c hc (by rw [hsc])
    dsimp only
    rw [if_neg (hn "no_reply" (by simp [recognizedErrorCodes])),
        if_neg (hn "in_process" (by simp [recognizedErrorCodes])),
        if_neg (hn "chatbot_not_active" (by simp [recognizedErrorCodes])),
        if_neg (hn "chatbot_not_found" (by simp [recognizedErrorCodes])),
        if_neg (hn "chatbot_not_trained" (by simp [recognizedErrorCodes])),
        if_neg (hn "bad_request" (by simp [recognizedErrorCodes])),
        if_neg (hn "access_denied" (by simp [recognizedErrorCodes])),
        if_neg (hn "rpd_limit_reached" (by simp [recognizedErrorCodes])),
        if_neg (hn "spam_block" (by simp [recognizedErrorCodes]))]
  all_goals rfl

/-!
## Claims
-/

/-- C1: the spec says constructing a message variant with a mimetype
outside its allowed set fails with `InvalidMimeType` and with an allowed
mimetype succeeds.  The code instead raises
`AttributeError('mimetypes')` on EVERY construction: the membership test
at line 88 reads `self.mimetypes`, an attribute neither the instance (its
dictionary holds only `data` and `mime`, the latter shadowed by the
mimetype string at line 86) nor any class defines, so no constructor call
ever reaches the `InvalidMimeType` raise or returns an object. -/
theorem c1_every_constructor_raises_attribute_error :
    (∀ (cls : MessageClass) (data mime : String),
      MessageBase.init cls data mime = Except.error (ApiError.attributeError "mimetypes")) ∧
    (∀ data mime : String,
      VoiceMessage.init data mime = Except.error (ApiError.attributeError "mimetypes")) ∧
    (∀ text : String,
      TextMessage.init text = Except.error (ApiError.attributeError "mimetypes")) :=
  ⟨fun _ _ _ => rfl, fun _ _ => rfl, fun _ => rfl⟩

/-- C2 counterexample: the claim says BOTH send variants fail with
`BadRequest` on an empty message list without a network call; the
suspending variant, called with an empty list against a 200/success
server, POSTs the request and returns normally. -/
theorem c2_counterexample_async_empty_list :
    (AsyncAPI.send_messages cfgEx "client-1" [] none false srvOkEx).request.isSome = true ∧
    (AsyncAPI.send_messages cfgEx "client-1" [] none false srvOkEx).result = Except.ok () :=
  ⟨rfl, rfl⟩

/-- C2 amended: only the blocking `send_messages` checks for an empty
message list; it fails with `BadRequest` and performs no network call,
while the suspending variant always POSTs the built request. -/
theorem c2_empty_list_blocking_only :
    ∀ (cfg : ClientConfig) (client_id : String)
      (metadata : Option (List (String × JVal))) (via_crm : Bool) (server : ServerBehavior),
      SyncAPI.send_messages cfg client_id [] metadata via_crm server =
        ⟨none, Except.error (ApiError.badRequest
          (JVal.str "List of messages must contain at least one message!"))⟩ ∧
      (AsyncAPI.send_messages cfg client_id [] metadata via_crm server).request =
        some (buildRequest cfg client_id [] metadata via_crm) :=
  fun _ _ _ _ _ => ⟨rfl, rfl⟩

/-- C3 counterexample: on an empty message list with identical server
behavior (200, success body) the blocking variant fails with `BadRequest`
before any network call while the suspending variant POSTs and succeeds,
so the two variants do not always produce the same outcome. -/
theorem c3_counterexample_sync_async_differ :
    SyncAPI.send_messages cfgEx "client-1" [] none false srvOkEx ≠
      AsyncAPI.send_messages cfgEx "client-1" [] none false srvOkEx := by
  intro h
  have h1 := congrArg SendOutcome.result h
  have h2 : (SyncAPI.send_messages cfgEx "client-1" [] none false srvOkEx).result =
      Except.error (ApiError.badRequest
        (JVal.str "List of messages must contain at least one message!")) := rfl
  have h3 : (AsyncAPI.send_messages cfgEx "client-1" [] none false srvOkEx).result =
      Except.ok () := rfl
  rw [h2, h3] at h1
  exact Except.noConfusion h1

/-- C3 amended: for every NON-EMPTY message list and every input and fixed
server behavior, the blocking and suspending variants produce identical
outcomes (same POSTed request, same result); they diverge only on the
empty list. -/
theorem c3_sync_async_equiv_nonempty :
    ∀ (cfg : ClientConfig) (client_id : String) (messages : List MessageObj)
      (metadata : Option (List (String × JVal))) (via_crm : Bool) (server : ServerBehavior),
      messages ≠ [] →
      SyncAPI.send_messages cfg client_id messages metadata via_crm server =
        AsyncAPI.send_messages cfg client_id messages metadata via_crm server := by
  intro cfg client_id messages metadata via_crm server h
  simp [SyncAPI.send_messages, AsyncAPI.send_messages, List.length_eq_zero, h]

theorem c3_sync_async_equiv_nonempty_witness :
    [msgEx] ≠ ([] : List MessageObj) ∧
    SyncAPI.send_messages cfgEx "client-1" [msgEx] none false srvOkEx =
      AsyncAPI.send_messages cfgEx "client-1" [msgEx] none false srvOkEx :=
  ⟨by simp, c3_sync_async_equiv_nonempty cfgEx "client-1" [msgEx] none false srvOkEx (by simp)⟩

/-- C9: the spec's scenario "serializing a Text message constructed with
content s yields `\x7btype: text, mime: text/plain, data: s\x7d`" cannot run:
`TextMessage(s)` raises `AttributeError` (the `self.mimetypes` slip of
line 88), so no Text message object is ever constructed.  The `serialize`
method itself, applied to the fields the constructor was about to
establish, does produce exactly the claimed object. -/
theorem c9_text_message_serialization :
    ∀ s : String,
      TextMessage.init s = Except.error (ApiError.attributeError "mimetypes") ∧
      MessageObj.serialize ⟨some "text", "text/plain", s⟩ =
        JVal.obj [("type", JVal.str "text"), ("mime", JVal.str "text/plain"),
          ("data", JVal.str s)] :=
  fun _ => ⟨rfl, rfl⟩


/-- C4: whenever a send actually reaches the server (for the blocking
variant this requires a non-empty message list, else it fails locally
before any request) and the server answers HTTP 200 with a body whose
`status` field equals `"success"`, both variants return normally with no
value. -/
theorem c4_success_returns_unit :
    ∀ (cfg : ClientConfig) (client_id : String) (messages : List MessageObj)
      (metadata : Option (List (String × JVal))) (via_crm : Bool)
      (body : List (String × JVal)),
      lookup body "status" = Except.ok (JVal.str "success") →
      (messages ≠ [] →
        (SyncAPI.send_messages cfg client_id messages metadata via_crm ⟨200, body⟩).result =
          Except.ok ()) ∧
      (AsyncAPI.send_messages cfg client_id messages metadata via_crm ⟨200, body⟩).result =
        Except.ok () := by
  intro cfg client_id messages metadata via_crm body hst
  refine ⟨fun h => ?_, ?_⟩
  · rw [sync_result_200 cfg client_id messages metadata via_crm body h]
    exact check_success body hst
  · rw [async_result_200]
    exact check_success body hst

theorem c4_success_returns_unit_witness :
    lookup bodyOkEx "status" = Except.ok (JVal.str "success") ∧
    [msgEx] ≠ ([] : List MessageObj) ∧
    (SyncAPI.send_messages cfgEx "client-1" [msgEx] none false ⟨200, bodyOkEx⟩).result =
      Except.ok () ∧
    (AsyncAPI.send_messages cfgEx "client-1" [msgEx] none false ⟨200, bodyOkEx⟩).result =
      Except.ok () :=
  ⟨rfl, by simp,
   (c4_success_returns_unit cfgEx "client-1" [msgEx] none false bodyOkEx rfl).1 (by simp),
   (c4_success_returns_unit cfgEx "client-1" [msgEx] none false bodyOkEx rfl).2⟩

/-- C5: whenever a send reaches the server (non-empty list for the
blocking variant) and the server answers any HTTP status other than 200,
both variants fail with `UnknownError`, whatever the body holds. -/
theorem c5_non200_unknown_error :
    ∀ (cfg : ClientConfig) (client_id : String) (messages : List MessageObj)
      (metadata : Option (List (String × JVal))) (via_crm : Bool)
      (code : Nat) (body : List (String × JVal)),
      code ≠ 200 →
      (messages ≠ [] →
        (SyncAPI.send_messages cfg client_id messages metadata via_crm ⟨code, body⟩).result =
          Except.error (ApiError.unknownError unknownStatusMsg)) ∧
      (AsyncAPI.send_messages cfg client_id messages metadata via_crm ⟨code, body⟩).result =
        Except.error (ApiError.unknownError unknownStatusMsg) := by
  intro cfg client_id messages metadata via_crm code body hc
  exact ⟨fun h => sync_result_non200 cfg client_id messages metadata via_crm code body h hc,
         async_result_non200 cfg client_id messages metadata via_crm code body hc⟩

theorem c5_non200_unknown_error_witness :
    (503 : Nat) ≠ 200 ∧
    [msgEx] ≠ ([] : List MessageObj) ∧
    (SyncAPI.send_messages cfgEx "client-1" [msgEx] none false ⟨503, bodyOkEx⟩).result =
      Except.error (ApiError.unknownError unknownStatusMsg) ∧
    (AsyncAPI.send_messages cfgEx "client-1" [msgEx] none false ⟨503, bodyOkEx⟩).result =
      Except.error (ApiError.unknownError unknownStatusMsg) :=
  ⟨by decide, by simp,
   (c5_non200_unknown_error cfgEx "client-1" [msgEx] none false 503 bodyOkEx
     (by decide)).1 (by simp),
   (c5_non200_unknown_error cfgEx "client-1" [msgEx] none false 503 bodyOkEx
     (by decide)).2⟩

/-- C6: on HTTP 200 with `status == "error"` and an error code in the
dispatch table, both send variants fail with exactly the mapped failure
kind carrying the server's `message` value (for `bad_request`, annotated
with the possible client/schema-mismatch note), per `errorDispatchTable`. -/
theorem c6_error_code_dispatch :
    ∀ (cfg : ClientConfig) (client_id : String) (messages : List MessageObj)
      (metadata : Option (List (String × JVal))) (via_crm : Bool)
      (body : List (String × JVal)) (m : JVal) (c : String) (k : JVal → ApiError),
      lookup body "status" = Except.ok (JVal.str "error") →
      lookup body "error" = Except.ok (JVal.str c) →
      lookup body "message" = Except.ok m →
      (c, k) ∈ errorDispatchTable →
      (messages ≠ [] →
        (SyncAPI.send_messages cfg client_id messages metadata via_crm ⟨200, body⟩).result =
          Except.error (k m)) ∧
      (AsyncAPI.send_messages cfg client_id messages metadata via_crm ⟨200, body⟩).result =
        Except.error (k m) := by
  intro cfg client_id messages metadata via_crm body m c k hs he hm hmem
  refine ⟨fun h => ?_, ?_⟩
  · rw [sync_result_200 cfg client_id messages metadata via_crm body h]
    exact check_dispatch body m c k hs he hm hmem
  · rw [async_result_200]
    exact check_dispatch body m c k hs he hm hmem

theorem c6_error_code_dispatch_witness :
    lookup bodyErrEx "status" = Except.ok (JVal.str "error") ∧
    lookup bodyErrEx "error" = Except.ok (JVal.str "spam_block") ∧
    lookup bodyErrEx "message" = Except.ok (JVal.str "m") ∧
    ("spam_block", ApiError.spamBlock) ∈ errorDispatchTable ∧
    [msgEx] ≠ ([] : List MessageObj) ∧
    (SyncAPI.send_messages cfgEx "client-1" [msgEx] none false ⟨200, bodyErrEx⟩).result =
      Except.error (ApiError.spamBlock (JVal.str "m")) ∧
    (AsyncAPI.send_messages cfgEx "client-1" [msgEx] none false ⟨200, bodyErrEx⟩).result =
      Except.error (ApiError.spamBlock (JVal.str "m")) :=
  ⟨rfl, rfl, rfl, by simp [errorDispatchTable], by simp,
   (c6_error_code_dispatch cfgEx "client-1" [msgEx] none false bodyErrEx
     (JVal.str "m") "spam_block" ApiError.spamBlock rfl rfl rfl
     (by simp [errorDispatchTable])).1 (by simp),
   (c6_error_code_dispatch cfgEx "client-1" [msgEx] none false bodyErrEx
     (JVal.str "m") "spam_block" ApiError.spamBlock rfl rfl rfl
     (by simp [errorDispatchTable])).2⟩

/-- C7 counterexample: the claim also promises `UnknownError` for
"otherwise malformed" bodies, but an HTTP-200 body missing the `status`
key (e.g. `\x7b\x7d`) makes `send_messages` fail with a raw `KeyError`,
not `UnknownError`. -/
theorem c7_counterexample_missing_status_key :
    (SyncAPI.send_messages cfgEx "client-1" [msgEx] none false ⟨200, []⟩).result =
      Except.error (ApiError.keyError "status") ∧
    (SyncAPI.send_messages cfgEx "client-1" [msgEx] none false ⟨200, []⟩).result ≠
      Except.error (ApiError.unknownError unknownStatusMsg) := by
  refine ⟨rfl, ?_⟩
  have h0 : (SyncAPI.send_messages cfgEx "client-1" [msgEx] none false ⟨200, []⟩).result =
      Except.error (ApiError.keyError "status") := rfl
  rw [h0]
  simp

/-- C7 amended: on HTTP 200, a body whose `status` KEY IS PRESENT with a
value that is neither `"success"` nor `"error"` makes both variants fail
with `UnknownError`; likewise a `status == "error"` body whose `error`
key is present with a value outside the dispatch table.  (Bodies missing
the consulted keys instead raise a raw `KeyError`.) -/
theorem c7_unknown_status_or_code :
    (∀ (cfg : ClientConfig) (client_id : String) (messages : List MessageObj)
       (metadata : Option (List (String × JVal))) (via_crm : Bool)
       (body : List (String × JVal)) (v : JVal),
       messages ≠ [] →
       lookup body "status" = Except.ok v →
       v ≠ JVal.str "success" → v ≠ JVal.str "error" →
       (SyncAPI.send_messages cfg client_id messages metadata via_crm ⟨200, body⟩).result =
         Except.error (ApiError.unknownError unknownStatusMsg) ∧
       (AsyncAPI.send_messages cfg client_id messages metadata via_crm ⟨200, body⟩).result =
         Except.error (ApiError.unknownError unknownStatusMsg)) ∧
    (∀ (cfg : ClientConfig) (client_id : String) (messages : List MessageObj)
       (metadata : Option (List (String × JVal))) (via_crm : Bool)
       (body : List (String × JVal)) (w : JVal),
       messages ≠ [] →
       lookup body "status" = Except.ok (JVal.str "error") →
       lookup body "error" = Except.ok w →
       (∀ c ∈ recognizedErrorCodes, w ≠ JVal.str c) →
       (SyncAPI.send_messages cfg client_id messages metadata via_crm ⟨200, body⟩).result =
         Except.error (ApiError.unknownError unknownStatusMsg) ∧
       (AsyncAPI.send_messages cfg client_id messages metadata via_crm ⟨200, body⟩).result =
         Except.error (ApiError.unknownError unknownStatusMsg)) := by
  constructor
  · intro cfg client_id messages metadata via_crm body v h hv h1 h2
    have hc := check_unknown_status body v hv h1 h2
    refine ⟨?_, ?_⟩
    · rw [sync_result_200 cfg client_id messages metadata via_crm body h]
      exact hc
    · rw [async_result_200]
      exact hc
  · intro cfg client_id messages metadata via_crm body w h hs he hw
    have hc := check_unknown_code body w hs he hw
    refine ⟨?_, ?_⟩
    · rw [sync_result_200 cfg client_id messages metadata via_crm body h]
      exact hc
    · rw [async_result_200]
      exact hc

theorem c7_unknown_status_or_code_witness :
    lookup bodyWeirdStatus "status" = Except.ok (JVal.str "spam") ∧
    lookup bodyWeirdCode "error" = Except.ok (JVal.str "weird") ∧
    ((SyncAPI.send_messages cfgEx "client-1" [msgEx] none false ⟨200, bodyWeirdStatus⟩).result =
       Except.error (ApiError.unknownError unknownStatusMsg) ∧
     (AsyncAPI.send_messages cfgEx "client-1" [msgEx] none false ⟨200, bodyWeirdStatus⟩).result =
       Except.error (ApiError.unknownError unknownStatusMsg)) ∧
    ((SyncAPI.send_messages cfgEx "client-1" [msgEx] none false ⟨200, bodyWeirdCode⟩).result =
       Except.error (ApiError.unknownError unknownStatusMsg) ∧
     (AsyncAPI.send_messages cfgEx "client-1" [msgEx] none false ⟨200, bodyWeirdCode⟩).result =
       Except.error (ApiError.unknownError unknownStatusMsg)) :=
  ⟨rfl, rfl,
   c7_unknown_status_or_code.1 cfgEx "client-1" [msgEx] none false bodyWeirdStatus
     (JVal.str "spam") (by simp) rfl (by simp) (by simp),
   c7_unknown_status_or_code.2 cfgEx "client-1" [msgEx] none false bodyWeirdCode
     (JVal.str "weird") (by simp) rfl rfl (by simp [recognizedErrorCodes])⟩

/-- C8: `parse_reply` on a webhook object of the expected shape returns a
`ReplyMessage` carrying exactly the field values, with `metadata`
JSON-null when the key is absent; and every deserialization that hits a
missing key — i.e. any missing required field — is surfaced as
`BadResponse`. -/
theorem c8_parse_reply_shape_and_bad_response :
    (∀ (t fbmd mdv2 cu ci : JVal) (md : Option JVal),
      SyncAPI.parse_reply
        ([("answer", JVal.obj [("text", t), ("fbmd", fbmd), ("mdv2", mdv2)]),
          ("chatbot_uuid", cu), ("client_id", ci)] ++
          (match md with | some v => [("metadata", v)] | none => [])) =
        Except.ok ⟨t, fbmd, mdv2, cu, ci,
          match md with | some v => v | none => JVal.null⟩) ∧
    (∀ (packed : List (String × JVal)) (k : String),
      ReplyMessage.deserialize packed = Except.error (ApiError.keyError k) →
      SyncAPI.parse_reply packed = Except.error (ApiError.badResponse badResponseMsg)) := by
  constructor
  · intro t fbmd mdv2 cu ci md
    cases md <;> rfl
  · intro packed k h
    simp [SyncAPI.parse_reply, h]

theorem c8_parse_reply_shape_and_bad_response_witness :
    ReplyMessage.deserialize [] = Except.error (ApiError.keyError "answer") ∧
    SyncAPI.parse_reply [] = Except.error (ApiError.badResponse badResponseMsg) :=
  ⟨rfl, c8_parse_reply_shape_and_bad_response.2 [] "answer" rfl⟩

/-- C10: the response-checking step is total only under the precondition
that the body has a `status` key, an `error` key when status is
`"error"`, and a `message` key for every recognized error code; bodies
missing one of these (e.g. `\x7b\x7d`, or a `spam_block` error without
`message`) make the operation fail with a raw `KeyError` rather than any
failure kind of the published taxonomy, while under the precondition no
`KeyError` can escape. -/
theorem c10_check_totality :
    check_for_errors [] = Except.error (ApiError.keyError "status") ∧
    (SyncAPI.send_messages cfgEx "client-1" [msgEx] none false
      ⟨200, [("status", JVal.str "error"), ("error", JVal.str "spam_block")]⟩).result =
      Except.error (ApiError.keyError "message") ∧
    (∀ body : List (String × JVal),
      (∃ v, lookup body "status" = Except.ok v) →
      (lookup body "status" = Except.ok (JVal.str "error") →
        ∃ w, lookup body "error" = Except.ok w) →
      (∀ c ∈ recognizedErrorCodes,
        lookup body "status" = Except.ok (JVal.str "error") →
        lookup body "error" = Except.ok (JVal.str c) →
        ∃ u, lookup body "message" = Except.ok u) →
      ∀ kk, check_for_errors body ≠ Except.error (ApiError.keyError kk)) := by
  refine ⟨rfl, rfl, ?_⟩
  intro body h1 h2 h3 kk
  obtain ⟨v, hv⟩ := h1
  rcases v with s | n | b | _ | items | fields
  · by_cases hs1 : s = "success"
    · subst hs1
      rw [check_success body hv]
      simp
    · by_cases hs2 : s = "error"
      · subst hs2
        obtain ⟨w, hw⟩ := h2 hv
        rcases w with e | n2 | b2 | _ | items2 | fields2
        · by_cases hec : e ∈ recognizedErrorCodes
          · obtain ⟨u, hu⟩ := h3 e hec hv hw
            simp only [recognizedErrorCodes, List.mem_cons, List.not_mem_nil, or_false] at hec
            rcases hec with rfl | rfl | rfl | rfl | rfl | rfl | rfl | rfl | rfl
            · rw [check_dispatch body u "no_reply" ApiError.noReply hv hw hu
                (by simp [errorDispatchTable])]
              simp
            · rw [check_dispatch body u "in_process" ApiError.inProcess hv hw hu
                (by simp [errorDispatchTable])]
              simp
            · rw [check_dispatch body u "chatbot_not_active" ApiError.chatBotNotActive hv hw hu
                (by simp [errorDispatchTable])]
              simp
            · rw [check_dispatch body u "chatbot_not_found" ApiError.chatBotNotFound hv hw hu
                (by simp [errorDispatchTable])]
              simp
            · rw [check_dispatch body u "chatbot_not_trained" ApiError.chatBotNotTrained hv hw hu
                (by simp [errorDispatchTable])]
              simp
            · rw [check_dispatch body u "bad_request" (fun m => ApiError.badRequest (JVal.str
                ("Perhaps the `startduckai` package is outdated. Error message: " ++ pyStr m)))
                hv hw hu (by simp [errorDispatchTable])]
              simp
            · rw [check_dispatch body u "access_denied" ApiError.accessDenied hv hw hu
                (by simp [errorDispatchTable])]
              simp
            · rw [check_dispatch body u "rpd_limit_reached" ApiError.rpdLimitReached hv hw hu
                (by simp [errorDispatchTable])]
              simp
            · rw [check_dispatch body u "spam_block" ApiError.spamBlock hv hw hu
                (by simp [errorDispatchTable])]
              simp
          · rw [check_unknown_code body (JVal.str e) hv hw
              (fun c hc hh => hec (by injection hh with h4; rw [h4]; exact hc))]
            simp
        all_goals
          rw [check_unknown_code body _ hv hw (by intro c hc h4; exact JVal.noConfusion h4)]
          simp
      · rw [check_unknown_status body (JVal.str s) hv
          (by intro h4; injection h4 with h5; exact hs1 h5)
          (by intro h4; injection h4 with h5; exact hs2 h5)]
        simp
  all_goals
    rw [check_unknown_status body _ hv (by intro h4; exact JVal.noConfusion h4)
      (by intro h4; exact JVal.noConfusion h4)]
    simp

theorem c10_check_totality_witness :
    (∃ v, lookup bodyOkEx "status" = Except.ok v) ∧
    check_for_errors bodyOkEx ≠ Except.error (ApiError.keyError "status") := by
  have hne : ¬ (lookup bodyOkEx "status" = Except.ok (JVal.str "error")) := by
    rw [show lookup bodyOkEx "status" = Except.ok (JVal.str "success") from rfl]
    simp
  exact ⟨⟨JVal.str "success", rfl⟩,
    c10_check_totality.2.2 bodyOkEx ⟨JVal.str "success", rfl⟩
      (fun h => absurd h hne) (fun c hc h he => absurd h hne) "status"⟩
